import Mathlib

/-!
Verification of the Gaussian-beam model (GaussianOptics.py).

The Python class GaussianBeam is embedded shallowly: the instance state
(_wl, _w_0, _z_0, _rayleigh_length) becomes a structure over the reals,
each property setter becomes a function returning the updated state, and
each method becomes a real-valued function of the state and its arguments.
Optional Python arguments defaulting to None become Option arguments.
Python float arithmetic is modelled over the real numbers; the one place
where Python raises (division by zero in compute_rayleigh_length) is
modelled separately with an Except-valued variant.
-/

noncomputable section

namespace GaussianOptics

/-- State of a GaussianBeam instance: the three physical parameters and the
cached Rayleigh length, mirroring the fields _wl, _w_0, _z_0 and
_rayleigh_length of the Python class. -/
structure GaussianBeam where
  wl : ℝ
  w_0 : ℝ
  z_0 : ℝ
  rayleigh_length : ℝ

namespace GaussianBeam

/-- compute_rayleigh_length: math.pi*self._w_0**2/self._wl. -/
def compute_rayleigh_length (b : GaussianBeam) : ℝ :=
  Real.pi * b.w_0 ^ 2 / b.wl

/-- __init__: store wl, w_0, z_0, then cache the Rayleigh length computed
from the freshly stored fields. -/
def init (wl w_0 z_0 : ℝ) : GaussianBeam :=
  let pre : GaussianBeam := ⟨wl, w_0, z_0, 0⟩
  ⟨wl, w_0, z_0, pre.compute_rayleigh_length⟩

/-- wl.setter: assign _wl, then recompute the cached Rayleigh length. -/
def set_wl (b : GaussianBeam) (val : ℝ) : GaussianBeam :=
  let b1 : GaussianBeam := ⟨val, b.w_0, b.z_0, b.rayleigh_length⟩
  ⟨b1.wl, b1.w_0, b1.z_0, b1.compute_rayleigh_length⟩

/-- w_0.setter: assign _w_0, then recompute the cached Rayleigh length. -/
def set_w_0 (b : GaussianBeam) (val : ℝ) : GaussianBeam :=
  let b1 : GaussianBeam := ⟨b.wl, val, b.z_0, b.rayleigh_length⟩
  ⟨b1.wl, b1.w_0, b1.z_0, b1.compute_rayleigh_length⟩

/-- z_0.setter: assign _z_0, then (unconditionally, as in the source)
recompute the cached Rayleigh length. -/
def set_z_0 (b : GaussianBeam) (val : ℝ) : GaussianBeam :=
  let b1 : GaussianBeam := ⟨b.wl, b.w_0, val, b.rayleigh_length⟩
  ⟨b1.wl, b1.w_0, b1.z_0, b1.compute_rayleigh_length⟩

/-- waist_z: self._w_0*math.sqrt(1+((z-self._z_0)/self._rayleigh_length)**2). -/
def waist_z (b : GaussianBeam) (z : ℝ) : ℝ :=
  b.w_0 * Real.sqrt (1 + ((z - b.z_0) / b.rayleigh_length) ^ 2)

/-- power_aperture: power_in*(1-math.exp(-2*r**2/self.waist_z(z)**2)). -/
def power_aperture (b : GaussianBeam) (power_in r z : ℝ) : ℝ :=
  power_in * (1 - Real.exp (-2 * r ^ 2 / (b.waist_z z) ^ 2))

/-- fiber_coupling_efficiency (static method): if w_y is None it is replaced
by w_x, then eff = 1/(4*(mfd/w_x+w_x/mfd)*(mfd/w_y+w_y/mfd)). -/
def fiber_coupling_efficiency (mfd w_x : ℝ) (w_y : Option ℝ) : ℝ :=
  let wy : ℝ :=
    match w_y with
    | none => w_x
    | some v => v
  1 / (4 * (mfd / w_x + w_x / mfd) * (mfd / wy + wy / mfd))

/-- fiber_coupling_efficiency_lens: if w_in is None it defaults to the
instance field _w_0; w_lens = 4*self._wl*f/(math.pi*w_in); then delegate to
fiber_coupling_efficiency(mfd, w_lens) with w_y omitted. -/
def fiber_coupling_efficiency_lens (b : GaussianBeam) (mfd f : ℝ)
    (w_in : Option ℝ) : ℝ :=
  let win : ℝ :=
    match w_in with
    | none => b.w_0
    | some v => v
  let w_lens : ℝ := 4 * b.wl * f / (Real.pi * win)
  fiber_coupling_efficiency mfd w_lens none

/-- The derived-state invariant of the class: the cached _rayleigh_length
field agrees with math.pi*_w_0**2/_wl computed from the current fields. -/
def rayleigh_invariant (b : GaussianBeam) : Prop :=
  b.rayleigh_length = Real.pi * b.w_0 ^ 2 / b.wl

end GaussianBeam

/-- Python raises exactly one kind of error anywhere in this module:
ZeroDivisionError from the division in compute_rayleigh_length.  The class
contains no validation code and no other raise site, so the error type of
the model has this single constructor. -/
inductive PyError where
  | zeroDivisionError : PyError
deriving DecidableEq

namespace GaussianBeam

open Classical in
/-- compute_rayleigh_length with Python division semantics: dividing by a
zero wavelength raises ZeroDivisionError, otherwise the quotient is
returned. -/
def compute_rayleigh_lengthE (wl w_0 : ℝ) : Except PyError ℝ :=
  if wl = 0 then Except.error PyError.zeroDivisionError
  else Except.ok (Real.pi * w_0 ^ 2 / wl)

/-- __init__ with Python division semantics: construction fails exactly when
the Rayleigh-length computation divides by zero. -/
def initE (wl w_0 z_0 : ℝ) : Except PyError GaussianBeam :=
  match compute_rayleigh_lengthE wl w_0 with
  | Except.error e => Except.error e
  | Except.ok zR => Except.ok ⟨wl, w_0, z_0, zR⟩

/-- wl.setter with Python division semantics: the mutation fails exactly
when the triggered Rayleigh-length recomputation divides by zero. -/
def set_wlE (b : GaussianBeam) (val : ℝ) : Except PyError GaussianBeam :=
  match compute_rayleigh_lengthE val b.w_0 with
  | Except.error e => Except.error e
  | Except.ok zR => Except.ok ⟨val, b.w_0, b.z_0, zR⟩

end GaussianBeam

end GaussianOptics

namespace GaussianOptics

open GaussianBeam

/-- C2: fiber_coupling_efficiency returns
1/(4*(mfd/w_x+w_x/mfd)*(mfd/w_y+w_y/mfd)), and omitting w_y behaves exactly
as passing w_y = w_x (rotationally symmetric beam). -/
theorem fiber_coupling_formula (mfd w_x w_y : ℝ) :
    fiber_coupling_efficiency mfd w_x (some w_y)
      = 1 / (4 * (mfd / w_x + w_x / mfd) * (mfd / w_y + w_y / mfd)) ∧
    fiber_coupling_efficiency mfd w_x none
      = fiber_coupling_efficiency mfd w_x (some w_x) := by
  exact ⟨rfl, rfl⟩

/-- C9: fiber_coupling_efficiency is symmetric under exchange of the two
transverse waists w_x and w_y. -/
theorem fiber_coupling_symm (mfd w_x w_y : ℝ) :
    fiber_coupling_efficiency mfd w_x (some w_y)
      = fiber_coupling_efficiency mfd w_y (some w_x) := by
  unfold fiber_coupling_efficiency
  ring_nf

/-- C10: each setter writes its own parameter and leaves the other two
physical parameters unchanged (only the cached Rayleigh length is also
rewritten). -/
theorem setters_frame (b : GaussianBeam) (v : ℝ) :
    (set_wl b v).wl = v ∧ (set_wl b v).w_0 = b.w_0 ∧ (set_wl b v).z_0 = b.z_0 ∧
    (set_w_0 b v).w_0 = v ∧ (set_w_0 b v).wl = b.wl ∧ (set_w_0 b v).z_0 = b.z_0 ∧
    (set_z_0 b v).z_0 = v ∧ (set_z_0 b v).wl = b.wl ∧ (set_z_0 b v).w_0 = b.w_0 := by
  refine ⟨rfl, rfl, rfl, rfl, rfl, rfl, rfl, rfl, rfl⟩

/-- C7: fiber_coupling_efficiency_lens equals fiber_coupling_efficiency
applied to the derived focused waist 4*wl*f/(pi*w_in) in the symmetric
(w_y omitted) case, and an omitted incident waist defaults to the instance
field w_0. -/
theorem lens_coupling (b : GaussianBeam) (mfd f w_in : ℝ) :
    fiber_coupling_efficiency_lens b mfd f (some w_in)
      = fiber_coupling_efficiency mfd (4 * b.wl * f / (Real.pi * w_in)) none ∧
    fiber_coupling_efficiency_lens b mfd f none
      = fiber_coupling_efficiency_lens b mfd f (some b.w_0) := by
  exact ⟨rfl, rfl⟩

/-- C5: the beam radius is symmetric about the waist position:
waist_z(z) = waist_z(2*z_0 - z) for every beam state and every z. -/
theorem beam_radius_symm (b : GaussianBeam) (z : ℝ) :
    waist_z b z = waist_z b (2 * b.z_0 - z) := by
  unfold waist_z
  have h : 2 * b.z_0 - z - b.z_0 = -(z - b.z_0) := by ring
  rw [h, neg_div, neg_sq]

/-- C1 (counter-evidence): at the matched input mfd = w_x = 10.4e-6 with
w_y omitted, fiber_coupling_efficiency evaluates to 1/16, not 1: each factor
mfd/w+w/mfd equals 2 there, so the implemented 1/(4*2*2) caps the function
at 1/16. -/
theorem fiber_coupling_match_not_one :
    fiber_coupling_efficiency (10.4e-6) (10.4e-6) none = 1 / 16 ∧
    fiber_coupling_efficiency (10.4e-6) (10.4e-6) none ≠ 1 := by
  have h : fiber_coupling_efficiency (10.4e-6) (10.4e-6) none = 1 / 16 := by
    unfold fiber_coupling_efficiency
    norm_num
  exact ⟨h, by rw [h]; norm_num⟩

/-- C3: the invariant rayleigh_length = pi*w_0^2/wl holds immediately after
construction and after every setter, and the z_0 setter, although it does
recompute the cache, leaves its value unchanged on any state satisfying the
invariant. -/
theorem rayleigh_invariant_maintained (wl w_0 z_0 v : ℝ) (b : GaussianBeam)
    (hwl : 0 < wl) (hw0 : 0 < w_0) (hb : rayleigh_invariant b) :
    rayleigh_invariant (init wl w_0 z_0) ∧
    rayleigh_invariant (set_wl b v) ∧
    rayleigh_invariant (set_w_0 b v) ∧
    rayleigh_invariant (set_z_0 b v) ∧
    (set_z_0 b v).rayleigh_length = b.rayleigh_length := by
  refine ⟨rfl, rfl, rfl, rfl, ?_⟩
  show Real.pi * b.w_0 ^ 2 / b.wl = b.rayleigh_length
  exact hb.symm

/-- Witness for C3 at the concrete beam init 2 3 0 and new value 5. -/
theorem rayleigh_invariant_maintained_witness :
    rayleigh_invariant (init 2 3 0) ∧
    rayleigh_invariant (set_wl (init 2 3 0) 5) ∧
    rayleigh_invariant (set_w_0 (init 2 3 0) 5) ∧
    rayleigh_invariant (set_z_0 (init 2 3 0) 5) ∧
    (set_z_0 (init 2 3 0) 5).rayleigh_length = (init 2 3 0).rayleigh_length :=
  rayleigh_invariant_maintained 2 3 0 5 (init 2 3 0)
    (by norm_num) (by norm_num) rfl

/-- C4: waist_z returns w_0*sqrt(1+((z-z_0)/rayleigh_length)^2), equals
exactly w_0 at z = z_0, and w_0 is its minimum value over all z. -/
theorem beam_radius_spec (b : GaussianBeam) (z : ℝ) (hw : 0 < b.w_0) :
    waist_z b z
      = b.w_0 * Real.sqrt (1 + ((z - b.z_0) / b.rayleigh_length) ^ 2) ∧
    waist_z b b.z_0 = b.w_0 ∧
    b.w_0 ≤ waist_z b z := by
  refine ⟨rfl, ?_, ?_⟩
  · unfold waist_z
    simp
  · unfold waist_z
    have h1 : (1 : ℝ)
        ≤ Real.sqrt (1 + ((z - b.z_0) / b.rayleigh_length) ^ 2) := by
      have h2 := Real.sqrt_le_sqrt
        (show (1 : ℝ) ≤ 1 + ((z - b.z_0) / b.rayleigh_length) ^ 2 by
          nlinarith [sq_nonneg ((z - b.z_0) / b.rayleigh_length)])
      simpa using h2
    calc b.w_0 = b.w_0 * 1 := (mul_one _).symm
      _ ≤ _ := mul_le_mul_of_nonneg_left h1 hw.le

/-- Witness for C4 at the concrete beam init 1 1 0 and z = 1. -/
theorem beam_radius_spec_witness :
    waist_z (init 1 1 0) 1
      = (init 1 1 0).w_0 * Real.sqrt
          (1 + ((1 - (init 1 1 0).z_0) / (init 1 1 0).rayleigh_length) ^ 2) ∧
    waist_z (init 1 1 0) (init 1 1 0).z_0 = (init 1 1 0).w_0 ∧
    (init 1 1 0).w_0 ≤ waist_z (init 1 1 0) 1 :=
  beam_radius_spec (init 1 1 0) 1 (show (0 : ℝ) < 1 by norm_num)

/-- C6: power_aperture equals P*(1-exp(-2*r^2/waist_z(z)^2)), vanishes at
aperture radius 0, is monotone in the aperture radius for P >= 0, and tends
to P as the aperture radius tends to infinity. -/
theorem power_aperture_spec (b : GaussianBeam) (P z : ℝ) (hP : 0 ≤ P)
    (hW : waist_z b z ≠ 0) :
    (∀ r, power_aperture b P r z
        = P * (1 - Real.exp (-2 * r ^ 2 / (waist_z b z) ^ 2))) ∧
    power_aperture b P 0 z = 0 ∧
    (∀ r1 r2, 0 ≤ r1 → r1 ≤ r2 →
        power_aperture b P r1 z ≤ power_aperture b P r2 z) ∧
    Filter.Tendsto (fun r => power_aperture b P r z) Filter.atTop (nhds P) := by
  have hW2 : 0 < (waist_z b z) ^ 2 :=
    lt_of_le_of_ne (sq_nonneg _) (Ne.symm (pow_ne_zero 2 hW))
  refine ⟨fun r => rfl, ?_, ?_, ?_⟩
  · unfold power_aperture
    simp
  · intro r1 r2 hr1 h12
    unfold power_aperture
    have h1 : r1 ^ 2 ≤ r2 ^ 2 := pow_le_pow_left₀ hr1 h12 2
    have h2 : -2 * r2 ^ 2 / (waist_z b z) ^ 2
        ≤ -2 * r1 ^ 2 / (waist_z b z) ^ 2 :=
      (div_le_div_iff_of_pos_right hW2).mpr (by nlinarith)
    have h3 := Real.exp_le_exp.mpr h2
    have h4 := mul_le_mul_of_nonneg_left h3 hP
    nlinarith [h4]
  · have h1 : Filter.Tendsto (fun r : ℝ => r ^ 2) Filter.atTop Filter.atTop :=
      Filter.tendsto_pow_atTop (by norm_num)
    have hc : (-2 : ℝ) / (waist_z b z) ^ 2 < 0 :=
      div_neg_of_neg_of_pos (by norm_num) hW2
    have key : Filter.Tendsto (fun r : ℝ => -2 / (waist_z b z) ^ 2 * r ^ 2)
        Filter.atTop Filter.atBot :=
      Filter.Tendsto.const_mul_atTop_of_neg hc h1
    have hexp : Filter.Tendsto
        (fun r : ℝ => Real.exp (-2 * r ^ 2 / (waist_z b z) ^ 2))
        Filter.atTop (nhds 0) := by
      refine (Real.tendsto_exp_atBot.comp key).congr (fun r => ?_)
      simp only [Function.comp_apply]
      congr 1
      ring
    have hone : Filter.Tendsto (fun _ : ℝ => (1 : ℝ)) Filter.atTop (nhds 1) :=
      tendsto_const_nhds
    have hfin := (hone.sub hexp).const_mul P
    unfold power_aperture
    simpa using hfin

/-- Witness for C6 at the concrete beam init 1 1 0 with P = 1 and z = 0
(there waist_z evaluates to 1). -/
theorem power_aperture_spec_witness :
    waist_z (init 1 1 0) 0 ≠ 0 ∧
    ((∀ r, power_aperture (init 1 1 0) 1 r 0
        = 1 * (1 - Real.exp (-2 * r ^ 2 / (waist_z (init 1 1 0) 0) ^ 2))) ∧
     power_aperture (init 1 1 0) 1 0 0 = 0 ∧
     (∀ r1 r2, 0 ≤ r1 → r1 ≤ r2 →
        power_aperture (init 1 1 0) 1 r1 0
          ≤ power_aperture (init 1 1 0) 1 r2 0) ∧
     Filter.Tendsto (fun r => power_aperture (init 1 1 0) 1 r 0)
        Filter.atTop (nhds 1)) := by
  have hW : waist_z (init 1 1 0) 0 = 1 := by
    show (1 : ℝ) * Real.sqrt (1 + ((0 - 0) / (Real.pi * 1 ^ 2 / 1)) ^ 2) = 1
    simp
  exact ⟨by rw [hW]; norm_num,
    power_aperture_spec (init 1 1 0) 1 0 (by norm_num) (by rw [hW]; norm_num)⟩

/-- C8: a zero wavelength makes the Rayleigh-length division raise
ZeroDivisionError, so construction and the wavelength setter fail with that
arithmetic error; the model's error type has no other kind, mirroring the
absence of any validation error in the source. -/
theorem zero_wavelength_division_error (w_0 z_0 : ℝ) (b : GaussianBeam) :
    compute_rayleigh_lengthE 0 w_0 = Except.error PyError.zeroDivisionError ∧
    initE 0 w_0 z_0 = Except.error PyError.zeroDivisionError ∧
    set_wlE b 0 = Except.error PyError.zeroDivisionError ∧
    (∀ e : PyError, e = PyError.zeroDivisionError) := by
  have h : ∀ w : ℝ, compute_rayleigh_lengthE 0 w
      = Except.error PyError.zeroDivisionError := by
    intro w
    unfold compute_rayleigh_lengthE
    rw [if_pos rfl]
  refine ⟨h w_0, ?_, ?_, fun e => by cases e; rfl⟩
  · unfold initE
    rw [h w_0]
  · unfold set_wlE
    rw [h b.w_0]

end GaussianOptics
